import Mathlib

/-!
# Verification of the support-ticket assistant (`src/app.py`)

A shallow embedding of the Streamlit support-ticket assistant. The app keeps
session state (`processed_tickets`, `ticket_history`, `show_history`), calls a
local model through `ollama.chat`, parses the reply with `json.loads`, and
renders/exports the accumulated history.

Python values flowing out of `json.loads` are modelled by the `Json` inductive;
Python runtime semantics that the handlers rely on (truthiness, the `in`
operator, `dict.get`, `str.upper`) are modelled including their failure modes
(`TypeError`, `AttributeError`), since the handlers apply them to unchecked
dynamic values. External effects (the model endpoint, `json.loads`) enter as
oracle parameters, so theorems quantify over every possible behaviour of the
environment.
-/

/-- A JSON value as produced by the Python call `json.loads`: null, booleans,
numbers, strings, arrays and objects (Python dicts with string keys). -/
inductive Json where
  | null : Json
  | bool : Bool → Json
  | num : Int → Json
  | str : String → Json
  | arr : List Json → Json
  | obj : List (String × Json) → Json

/-- Python exceptions that the handler code in app.py can raise outside the
try/except of the classifier: TypeError (from the membership test on a
non-container) and AttributeError (from .get or .upper on a value lacking
the attribute). -/
inductive PyErr where
  | typeError : PyErr
  | attributeError : PyErr

/-- Python truthiness of a parsed JSON value (app.py line 126): None, False,
zero, the empty string, the empty list and the empty dict are falsy,
everything else truthy. -/
def Json.truthy : Json → Bool
  | Json.null => false
  | Json.bool b => b
  | Json.num n => n != 0
  | Json.str s => !s.isEmpty
  | Json.arr xs => !xs.isEmpty
  | Json.obj kvs => !kvs.isEmpty

/-- Whether `pat` is a prefix of the character list. -/
def charsPrefix : List Char → List Char → Bool
  | [], _ => true
  | _ :: _, [] => false
  | p :: ps, c :: cs => p == c && charsPrefix ps cs

/-- Whether `pat` occurs contiguously in the character list. -/
def charsContain (pat : List Char) : List Char → Bool
  | [] => charsPrefix pat []
  | c :: cs => charsPrefix pat (c :: cs) || charsContain pat cs

/-- Whether the pattern occurs as a substring: Python `pat in s` for a
non-empty `pat`. -/
def strContainsPat (s pat : String) : Bool :=
  charsContain pat.toList s.toList

/-- The Python membership test of a string k in a value (app.py line 126):
key membership for dicts, element membership for lists (a string key can only
equal a string element), substring test for strings, TypeError otherwise. -/
def Json.memStr : Json → String → Except PyErr Bool
  | Json.obj kvs, k => Except.ok (kvs.any (fun p => p.1 == k))
  | Json.arr xs, k =>
      Except.ok (xs.any (fun x =>
        match x with
        | Json.str s => s == k
        | _ => false))
  | Json.str s, k => Except.ok (strContainsPat s k)
  | _, _ => Except.error PyErr.typeError

/-- The Python call result.get(k, default) (app.py lines 148, 152, 165, 193,
194): defined on dicts only; any other value raises AttributeError. -/
def Json.pyGet : Json → String → Json → Except PyErr Json
  | Json.obj kvs, k, dflt => Except.ok ((List.lookup k kvs).getD dflt)
  | _, _, _ => Except.error PyErr.attributeError

/-- Whether the value is a dict with key `k` present (`false` on non-dicts). -/
def Json.hasKey : Json → String → Bool
  | Json.obj kvs, k => kvs.any (fun p => p.1 == k)
  | _, _ => false

/-- Whether the value is a Python dict. -/
def Json.isObj : Json → Bool
  | Json.obj _ => true
  | _ => false

/-- Characters stripped by the Python method str.strip with no argument. -/
def isPySpace (c : Char) : Bool :=
  c == ' ' || c == '\t' || c == '\n' || c == '\r' || c == '\x0b' || c == '\x0c'

/-- The stripped ticket text, ticket_text.strip() in app.py line 122: drop
leading and trailing whitespace. -/
def pyStrip (s : String) : String :=
  String.mk (((s.toList.dropWhile isPySpace).reverse.dropWhile isPySpace).reverse)

/-- A `datetime.datetime` value as used by the app (`datetime.now()`). -/
structure Datetime where
  year : Nat
  month : Nat
  day : Nat
  hour : Nat
  minute : Nat
  second : Nat

/-- Zero-pad to two digits (`strftime` field directives `%m %d %H %M %S`). -/
def pad2 (n : Nat) : String :=
  if n < 10 then "0" ++ toString n else toString n

/-- Zero-pad to four digits (`strftime` directive `%Y`). -/
def pad4 (n : Nat) : String :=
  if n < 10 then "000" ++ toString n
  else if n < 100 then "00" ++ toString n
  else if n < 1000 then "0" ++ toString n
  else toString n

/-- Rendering of timestamp.strftime with the dashed pattern of app.py line
192: four-digit year, dash, month, dash, day, space, hour, colon, minute,
colon, second. -/
def strftimeDashed (t : Datetime) : String :=
  pad4 t.year ++ "-" ++ pad2 t.month ++ "-" ++ pad2 t.day ++ " " ++
    pad2 t.hour ++ ":" ++ pad2 t.minute ++ ":" ++ pad2 t.second

/-- Rendering of datetime.now().strftime with the compact pattern of app.py
line 201: YYYYMMDD, underscore, HHMMSS. -/
def strftimeCompact (t : Datetime) : String :=
  pad4 t.year ++ pad2 t.month ++ pad2 t.day ++ "_" ++
    pad2 t.hour ++ pad2 t.minute ++ pad2 t.second

/-- The instruction prompt built by `classify_and_summarize_ollama`
(app.py lines 18-24, an f-string embedding the ticket text). -/
def buildPrompt (ticket_text : String) : String :=
  "\n    Summarize the following support ticket and classify it.\n" ++
  "    Respond in JSON with two keys: \"summary\" and \"type\".\n" ++
  "    The \"type\" should be one of the following: \"bug\", \"feature\", or \"billing\".\n\n" ++
  "    Ticket: " ++ ticket_text ++ "\n    "

/-- Function classify_and_summarize_ollama (app.py lines 7-38). The two
fallible steps inside the try block enter as oracles: `chat model prompt` is
the ollama.chat call followed by the message-content extraction
(`Except.error e` is any exception, carrying str(e)), and `loads` is
json.loads on the content. Any failure is caught and converted to a dict
whose single key is error, mapped to str(e); a successful parse is returned
as-is, whatever JSON value it is. -/
def classify_and_summarize_ollama (ticket_text model : String)
    (chat : String → String → Except String String)
    (loads : String → Except String Json) : Json :=
  match chat model (buildPrompt ticket_text) with
  | Except.error e => Json.obj [("error", Json.str e)]
  | Except.ok content =>
      match loads content with
      | Except.error e => Json.obj [("error", Json.str e)]
      | Except.ok result => result

/-- Function get_available_models (app.py lines 40-47). The oracle is the
outcome of ollama.list() plus the name-extraction comprehension
(`Except.error e` is any exception raised inside the try block). Returns the
list of model names and, as the second component, the error message passed to
st.error (`none` when no error was reported). On failure the hard-coded
one-element fallback list holding llama3 is returned. -/
def get_available_models (listResp : Except String (List String)) :
    List String × Option String :=
  match listResp with
  | Except.ok names => (names, none)
  | Except.error e => (["llama3"], some ("Error fetching models: " ++ e))

/-- One entry of `st.session_state.ticket_history` (app.py lines 133-138). -/
structure HistoryEntry where
  timestamp : Datetime
  ticket : String
  result : Json
  model : String

/-- The session state slots the app reads and writes. `ticket_history` is
`none` while that key is absent from st.session_state (it is created lazily,
app.py lines 130-131). `processed_tickets` is initialised to 0 by the sidebar
(lines 75-76) before any handler runs, so it is modelled as a plain `Nat`. -/
structure SessionState where
  processed_tickets : Nat
  ticket_history : Option (List HistoryEntry)
  show_history : Bool

/-- The state of a fresh session: counter `0` (after sidebar initialisation),
no `ticket_history` key, history panel hidden. -/
def initState : SessionState :=
  { processed_tickets := 0, ticket_history := none, show_history := false }

/-- The history list the app iterates over (absent key reads as empty). -/
def histList (s : SessionState) : List HistoryEntry :=
  s.ticket_history.getD []

/-- Number of stored history entries. -/
def histLen (s : SessionState) : Nat :=
  (histList s).length

/-- What the analyze handler did, observably: `warned` is the
`st.warning` branch for blank input (line 167), `success` the completed
success display, `errorShown v` the `st.error` branch (line 165, `v` the value
interpolated after `"Error processing ticket: "`), and `crashed` an uncaught
exception escaping the handler. -/
inductive AnalyzeOutcome where
  | warned : AnalyzeOutcome
  | success : AnalyzeOutcome
  | errorShown : Json → AnalyzeOutcome
  | crashed : AnalyzeOutcome

/-- Result of one run of the analyze handler: the session state after the run
(Streamlit keeps mutations made before an uncaught exception), whether the
classifier was called, and the observable outcome. -/
structure StepResult where
  state : SessionState
  called : Bool
  outcome : AnalyzeOutcome

/-- The state mutations of the success branch (app.py lines 127-138):
`processed_tickets += 1` (line 127), create the history list if the key is
missing (lines 130-131), append the new entry (lines 133-138). These all run
before the result display, so they persist even if the display then raises. -/
def appendState (s : SessionState) (ticket_text selected_model : String)
    (result : Json) (now : Datetime) : SessionState :=
  { s with
    processed_tickets := s.processed_tickets + 1,
    ticket_history :=
      some (s.ticket_history.getD [] ++
        [{ timestamp := now, ticket := ticket_text, result := result,
           model := selected_model }]) }

/-- The success branch of the analyze handler (app.py lines 126-162): the
state mutations of `appendState`, then the result display. The display calls
result.get(summary, default) on line 148 and result.get(type, default) on
line 152, which raise AttributeError on a non-dict result, and
ticket_type.upper() on lines 156-162, which raises AttributeError when the
type value is not a string. -/
def successBranch (s : SessionState) (ticket_text selected_model : String)
    (result : Json) (now : Datetime) : StepResult :=
  let s2 := appendState s ticket_text selected_model result now
  match result.pyGet "summary" (Json.str "No summary available") with
  | Except.error _ => ⟨s2, true, AnalyzeOutcome.crashed⟩
  | Except.ok _ =>
      match result.pyGet "type" (Json.str "unknown") with
      | Except.error _ => ⟨s2, true, AnalyzeOutcome.crashed⟩
      | Except.ok (Json.str _) => ⟨s2, true, AnalyzeOutcome.success⟩
      | Except.ok _ => ⟨s2, true, AnalyzeOutcome.crashed⟩

/-- The else branch of the analyze handler (app.py lines 164-165): shows an
st.error message interpolating result.get(error, default Unknown error).
The .get raises AttributeError when the result is not a dict; no session
state is touched. -/
def elseBranch (s : SessionState) (result : Json) : StepResult :=
  match result.pyGet "error" (Json.str "Unknown error") with
  | Except.error _ => ⟨s, true, AnalyzeOutcome.crashed⟩
  | Except.ok v => ⟨s, true, AnalyzeOutcome.errorShown v⟩

/-- The branch on `result and "error" not in result` (app.py line 126):
Python evaluates truthiness first (falsy values short-circuit to the `else`
branch without the membership test), then the membership test, which can raise
`TypeError`, aborting the run with no state change. -/
def dispatchResult (s : SessionState) (ticket_text selected_model : String)
    (result : Json) (now : Datetime) : StepResult :=
  if result.truthy then
    match result.memStr "error" with
    | Except.error _ => ⟨s, true, AnalyzeOutcome.crashed⟩
    | Except.ok true => elseBranch s result
    | Except.ok false => successBranch s ticket_text selected_model result now
  else
    elseBranch s result

/-- One press of the "Analyze Ticket" button (app.py lines 121-167).
Blank input (`ticket_text.strip()` falsy) short-circuits to the warning with
no classifier call; otherwise the classifier runs and its result is
dispatched. -/
def analyzeStep (s : SessionState) (ticket_text selected_model : String)
    (chat : String → String → Except String String)
    (loads : String → Except String Json)
    (now : Datetime) : StepResult :=
  if (pyStrip ticket_text).isEmpty then
    ⟨s, false, AnalyzeOutcome.warned⟩
  else
    dispatchResult s ticket_text selected_model
      (classify_and_summarize_ollama ticket_text selected_model chat loads) now

/-- The Clear History button (app.py lines 81-85): the history list is reset
to empty only when the ticket_history key exists; the counter is reset to
zero unconditionally. -/
def clearHistory (s : SessionState) : SessionState :=
  let s1 :=
    if s.ticket_history.isSome then { s with ticket_history := some [] } else s
  { s1 with processed_tickets := 0 }

/-- One flattened record of the export payload (app.py lines 191-196). -/
structure ExportRecord where
  timestamp : String
  type : Json
  summary : Json
  original_ticket : String

/-- Truncation of the exported ticket text (app.py line 195): the first 100
characters plus a three-character ellipsis when the ticket is longer than 100
characters, else the ticket unchanged. -/
def truncTicket (t : String) : String :=
  if t.length > 100 then String.mk (t.toList.take 100) ++ "..." else t

/-- Build one export record from a history entry (app.py lines 191-196).
The dict literal evaluates strftime (cannot fail), then the .get lookups of
type and summary on the stored result — which raise AttributeError when that
result is not a dict — then the truncated ticket text. -/
def exportItem (item : HistoryEntry) : Except PyErr ExportRecord :=
  match item.result.pyGet "type" (Json.str "unknown") with
  | Except.error e => Except.error e
  | Except.ok ty =>
      match item.result.pyGet "summary" (Json.str "") with
      | Except.error e => Except.error e
      | Except.ok sm =>
          Except.ok
            { timestamp := strftimeDashed item.timestamp, type := ty,
              summary := sm, original_ticket := truncTicket item.ticket }

/-- The export loop (app.py lines 189-196): builds records in history order,
propagating the first exception. -/
def buildExportData : List HistoryEntry → Except PyErr (List ExportRecord)
  | [] => Except.ok []
  | item :: rest =>
      match exportItem item with
      | Except.error e => Except.error e
      | Except.ok r =>
          match buildExportData rest with
          | Except.error e => Except.error e
          | Except.ok rs => Except.ok (r :: rs)

/-- The downloadable artifact offered by `st.download_button`
(app.py lines 198-203): its file name, MIME type, and the list of records
serialised by `json.dumps` into the payload. -/
structure Artifact where
  file_name : String
  mime : String
  data : List ExportRecord

/-- Observable outcome of the export button: the `st.warning` branch, a
download offer, or an uncaught exception. -/
inductive ExportOutcome where
  | warned : ExportOutcome
  | artifact : Artifact → ExportOutcome
  | crashed : ExportOutcome

/-- One press of Export Results (app.py lines 186-205): warns when the
ticket_history key is absent or the list is empty (line 205), otherwise
builds the export data and offers it as a download named ticket_analysis_,
the compact timestamp and .json, with MIME type application/json. -/
def exportAction (s : SessionState) (now : Datetime) : ExportOutcome :=
  match s.ticket_history with
  | none => ExportOutcome.warned
  | some [] => ExportOutcome.warned
  | some (item :: rest) =>
      match buildExportData (item :: rest) with
      | Except.error _ => ExportOutcome.crashed
      | Except.ok data =>
          ExportOutcome.artifact
            { file_name := "ticket_analysis_" ++ strftimeCompact now ++ ".json",
              mime := "application/json",
              data := data }

/-- One user action, as a transition on session state: pressing Analyze (with
any input text, model and environment behaviour), Clear History, View History
or Hide History. Export does not mutate session state. -/
inductive AppStep : SessionState → SessionState → Prop where
  | analyze (s : SessionState) (text model : String)
      (chat : String → String → Except String String)
      (loads : String → Except String Json) (now : Datetime) :
      AppStep s (analyzeStep s text model chat loads now).state
  | clear (s : SessionState) : AppStep s (clearHistory s)
  | viewHist (s : SessionState) : AppStep s { s with show_history := true }
  | hideHist (s : SessionState) : AppStep s { s with show_history := false }

/-- A session state is reachable when some sequence of user actions leads to
it from the fresh-session state. -/
def Reachable (s : SessionState) : Prop :=
  Relation.ReflTransGen AppStep initState s

/-! ## Helper lemmas about the handlers -/

/-- A sample timestamp for concrete scenarios. -/
def t0 : Datetime := ⟨2024, 1, 2, 3, 4, 5⟩

/-- A second sample timestamp for concrete scenarios. -/
def t1 : Datetime := ⟨2024, 6, 7, 8, 9, 10⟩

theorem successBranch_state (s : SessionState) (text model : String)
    (r : Json) (now : Datetime) :
    (successBranch s text model r now).state = appendState s text model r now := by
  unfold successBranch
  cases r.pyGet "summary" (Json.str "No summary available") with
  | error e => rfl
  | ok v =>
    cases r.pyGet "type" (Json.str "unknown") with
    | error e => rfl
    | ok t => cases t <;> rfl

theorem elseBranch_state (s : SessionState) (r : Json) :
    (elseBranch s r).state = s := by
  unfold elseBranch
  cases r.pyGet "error" (Json.str "Unknown error") with
  | error e => rfl
  | ok v => rfl

/-- After dispatching a classifier result, the session state is unchanged, or
the result was truthy and free of the `error` key and the state gained exactly
that one entry. -/
theorem dispatchResult_state_cases (s : SessionState) (text model : String)
    (r : Json) (now : Datetime) :
    (dispatchResult s text model r now).state = s ∨
      (r.truthy = true ∧ r.memStr "error" = Except.ok false ∧
        (dispatchResult s text model r now).state = appendState s text model r now) := by
  unfold dispatchResult
  by_cases htr : r.truthy
  · rw [if_pos htr]
    cases hm : r.memStr "error" with
    | error e => exact Or.inl rfl
    | ok b =>
      cases b with
      | false => exact Or.inr ⟨htr, rfl, successBranch_state s text model r now⟩
      | true => exact Or.inl (elseBranch_state s r)
  · rw [if_neg htr]
    exact Or.inl (elseBranch_state s r)

/-- After one analyze run, the session state is unchanged, or one entry with a
truthy, `error`-free result was appended and the counter incremented. -/
theorem analyzeStep_state_cases (s : SessionState) (text model : String)
    (chat : String → String → Except String String)
    (loads : String → Except String Json) (now : Datetime) :
    (analyzeStep s text model chat loads now).state = s ∨
      (∃ r : Json, r.truthy = true ∧ r.memStr "error" = Except.ok false ∧
        (analyzeStep s text model chat loads now).state = appendState s text model r now) := by
  unfold analyzeStep
  by_cases he : (pyStrip text).isEmpty
  · rw [if_pos he]
    exact Or.inl rfl
  · rw [if_neg he]
    rcases dispatchResult_state_cases s text model
        (classify_and_summarize_ollama text model chat loads) now with h | ⟨h1, h2, h3⟩
    · exact Or.inl h
    · exact Or.inr ⟨_, h1, h2, h3⟩

theorem histList_appendState (s : SessionState) (text model : String)
    (r : Json) (now : Datetime) :
    histList (appendState s text model r now) =
      histList s ++
        [{ timestamp := now, ticket := text, result := r, model := model }] := by
  simp [appendState, histList]

theorem histList_clearHistory (s : SessionState) :
    histList (clearHistory s) = [] := by
  cases h : s.ticket_history <;> simp [clearHistory, histList, h]

theorem clearHistory_counter (s : SessionState) :
    (clearHistory s).processed_tickets = 0 := by
  cases h : s.ticket_history <;> simp [clearHistory, h]

/-! ## The claims -/

/-- C10: starting from the fresh session (counter `0`, no history), every
user action — analyze (which increments counter and history together on the
success branch and touches neither otherwise), clear-history (which resets
both) and the display toggles — preserves
`processed_tickets = length of ticket_history`. -/
theorem processed_tickets_eq_history_length (s : SessionState)
    (hs : Reachable s) : s.processed_tickets = histLen s := by
  induction hs with
  | refl => rfl
  | @tail b c _ step ih =>
    cases step with
    | analyze text model chat loads now =>
      rcases analyzeStep_state_cases b text model chat loads now with h | ⟨r, _, _, h⟩
      · rw [h]; exact ih
      · rw [h]
        show b.processed_tickets + 1 = histLen (appendState b text model r now)
        rw [ih]
        simp [histLen, histList_appendState]
    | clear =>
      rw [clearHistory_counter]
      simp [histLen, histList_clearHistory]
    | viewHist => exact ih
    | hideHist => exact ih

/-- Witness state for C10: one successful classification from the fresh
session. -/
def c10Chat : String → String → Except String String :=
  fun _ _ => Except.ok "ignored"

/-- Parse oracle returning a well-formed classification. -/
def c10Loads : String → Except String Json :=
  fun _ => Except.ok (Json.obj [("summary", Json.str "Login crash"), ("type", Json.str "bug")])

/-- The state after one successful analyze from the fresh session. -/
def c10State : SessionState :=
  (analyzeStep initState "App crashes on login" "llama3" c10Chat c10Loads t0).state

/-- C10 witness: the invariant instantiated at a concrete reachable state
with one processed ticket. -/
theorem processed_tickets_eq_history_length_witness :
    c10State.processed_tickets = histLen c10State :=
  processed_tickets_eq_history_length c10State
    (Relation.ReflTransGen.single
      (AppStep.analyze initState "App crashes on login" "llama3" c10Chat c10Loads t0))

/-- Chat oracle for the C1 counterexample (content is irrelevant, the parse
oracle decides the result). -/
def c1Chat : String → String → Except String String :=
  fun _ _ => Except.ok "ignored"

/-- Parse oracle producing a dict with neither `summary` nor `type`. -/
def c1Loads : String → Except String Json :=
  fun _ => Except.ok (Json.obj [("note", Json.str "hi")])

/-- A reachable state whose single history entry lacks both keys. -/
def c1State : SessionState :=
  (analyzeStep initState "The app crashes" "llama3" c1Chat c1Loads t0).state

/-- C1 counterexample: a reachable session state holds a history entry whose
result has neither a `summary` nor a `type` key — the handler only checks
`result and "error" not in result` (app.py line 126) before appending, so a
non-empty dict without those keys is stored. -/
theorem history_entry_may_lack_summary_type :
    Reachable c1State ∧
      ((histList c1State).any fun e =>
        !(e.result.hasKey "summary") && !(e.result.hasKey "type")) = true := by
  constructor
  · exact Relation.ReflTransGen.single
      (AppStep.analyze initState "The app crashes" "llama3" c1Chat c1Loads t0)
  · rfl

/-- C1 amended: every entry appended to the ticket history has a truthy
result for which the Python membership test of the error key succeeds and returns
`True` (for dictionaries: a non-empty dictionary without an `error` key);
the `summary` and `type` keys are not guaranteed to be present. -/
theorem history_entries_truthy_without_error_key (s : SessionState)
    (hs : Reachable s) :
    ∀ e ∈ histList s,
      e.result.truthy = true ∧ e.result.memStr "error" = Except.ok false := by
  induction hs with
  | refl => intro e he; cases he
  | @tail b c _ step ih =>
    cases step with
    | analyze text model chat loads now =>
      rcases analyzeStep_state_cases b text model chat loads now with h | ⟨r, h1, h2, h⟩
      · rw [h]; exact ih
      · rw [h]
        intro e he
        rw [histList_appendState] at he
        rcases List.mem_append.mp he with he | he
        · exact ih e he
        · rcases List.mem_singleton.mp he with rfl
          exact ⟨h1, h2⟩
    | clear =>
      intro e he
      rw [histList_clearHistory] at he
      cases he
    | viewHist => exact ih
    | hideHist => exact ih

/-- C1 amended witness: the invariant instantiated at the concrete reachable
state of the counterexample, at its single entry. -/
theorem history_entries_truthy_without_error_key_witness :
    (Json.obj [("note", Json.str "hi")]).truthy = true ∧
      (Json.obj [("note", Json.str "hi")]).memStr "error" = Except.ok false :=
  history_entries_truthy_without_error_key c1State
    (Relation.ReflTransGen.single
      (AppStep.analyze initState "The app crashes" "llama3" c1Chat c1Loads t0))
    { timestamp := t0, ticket := "The app crashes",
      result := Json.obj [("note", Json.str "hi")], model := "llama3" }
    (List.mem_singleton.mpr rfl)

/-- A value with a key is a dict. -/
theorem hasKey_isObj {r : Json} {k : String} (h : r.hasKey k = true) :
    ∃ kvs, r = Json.obj kvs := by
  cases r <;> first
    | exact ⟨_, rfl⟩
    | exact absurd h (by simp [Json.hasKey])

theorem dispatchResult_success_state {r : Json} (s : SessionState)
    (text model : String) (now : Datetime) (htr : r.truthy = true)
    (hm : r.memStr "error" = Except.ok false) :
    (dispatchResult s text model r now).state = appendState s text model r now := by
  unfold dispatchResult
  rw [if_pos htr, hm]
  exact successBranch_state s text model r now

theorem dispatchResult_error_state {r : Json} (s : SessionState)
    (text model : String) (now : Datetime)
    (hm : r.memStr "error" = Except.ok true) :
    (dispatchResult s text model r now).state = s := by
  unfold dispatchResult
  by_cases htr : r.truthy
  · rw [if_pos htr, hm]
    exact elseBranch_state s r
  · rw [if_neg htr]
    exact elseBranch_state s r

theorem analyzeStep_eq_dispatch (s : SessionState) (text model : String)
    (chat : String → String → Except String String)
    (loads : String → Except String Json) (now : Datetime)
    (hne : (pyStrip text).isEmpty = false) :
    analyzeStep s text model chat loads now =
      dispatchResult s text model
        (classify_and_summarize_ollama text model chat loads) now := by
  unfold analyzeStep
  rw [if_neg (by simp [hne])]

/-- C2: for a non-blank ticket, if the classification result contains both
`summary` and `type` and no `error` key, the analyze run increments both the
counter and the history length by exactly 1; if it contains an `error` key,
both are unchanged. -/
theorem analyze_updates_history_and_counter (s : SessionState)
    (text model : String)
    (chat : String → String → Except String String)
    (loads : String → Except String Json) (now : Datetime)
    (hne : (pyStrip text).isEmpty = false) :
    ((classify_and_summarize_ollama text model chat loads).hasKey "summary" = true →
      (classify_and_summarize_ollama text model chat loads).hasKey "type" = true →
      (classify_and_summarize_ollama text model chat loads).hasKey "error" = false →
        (analyzeStep s text model chat loads now).state.processed_tickets
            = s.processed_tickets + 1 ∧
        histLen (analyzeStep s text model chat loads now).state = histLen s + 1) ∧
    ((classify_and_summarize_ollama text model chat loads).hasKey "error" = true →
        (analyzeStep s text model chat loads now).state.processed_tickets
            = s.processed_tickets ∧
        histLen (analyzeStep s text model chat loads now).state = histLen s) := by
  rw [analyzeStep_eq_dispatch s text model chat loads now hne]
  constructor
  · intro h1 _ h3
    obtain ⟨kvs, hkvs⟩ := hasKey_isObj h1
    rw [hkvs] at h1 h3 ⊢
    have htr : (Json.obj kvs).truthy = true := by
      cases kvs with
      | nil => simp [Json.hasKey] at h1
      | cons a l => rfl
    have hm : (Json.obj kvs).memStr "error" = Except.ok false := by
      simp only [Json.memStr]
      simpa [Json.hasKey] using h3
    rw [dispatchResult_success_state s text model now htr hm]
    exact ⟨rfl, by simp [histLen, histList_appendState]⟩
  · intro h
    obtain ⟨kvs, hkvs⟩ := hasKey_isObj h
    rw [hkvs] at h ⊢
    have hm : (Json.obj kvs).memStr "error" = Except.ok true := by
      simp only [Json.memStr]
      simpa [Json.hasKey] using h
    rw [dispatchResult_error_state s text model now hm]
    exact ⟨rfl, rfl⟩

/-- Chat oracle that fails with a transport error. -/
def c2ErrChat : String → String → Except String String :=
  fun _ _ => Except.error "boom"

/-- C2 witness: from the fresh session, a summary-and-type result makes the
counter and history length 1; a transport failure (whose result is the
`error` dict) leaves both at 0. -/
theorem analyze_updates_history_and_counter_witness :
    ((analyzeStep initState "App crashes on login" "llama3" c10Chat c10Loads t0).state.processed_tickets
        = initState.processed_tickets + 1 ∧
      histLen (analyzeStep initState "App crashes on login" "llama3" c10Chat c10Loads t0).state
        = histLen initState + 1) ∧
    ((analyzeStep initState "App crashes on login" "llama3" c2ErrChat c10Loads t0).state.processed_tickets
        = initState.processed_tickets ∧
      histLen (analyzeStep initState "App crashes on login" "llama3" c2ErrChat c10Loads t0).state
        = histLen initState) :=
  ⟨(analyze_updates_history_and_counter initState "App crashes on login" "llama3"
      c10Chat c10Loads t0 rfl).1 rfl rfl rfl,
   (analyze_updates_history_and_counter initState "App crashes on login" "llama3"
      c2ErrChat c10Loads t0 rfl).2 rfl⟩

/-- C3: `classify_and_summarize_ollama` never raises — an exception from the
chat call, or from parsing the returned content, is caught and converted to a
dict whose single key is `error`, mapped to the failure message. (Totality of
the Lean function is the image of the catch-all `except`; the theorem states
the value returned on each failure.) -/
theorem classifier_failure_returns_error_dict (text model : String)
    (chat : String → String → Except String String)
    (loads : String → Except String Json) :
    (∀ e, chat model (buildPrompt text) = Except.error e →
        classify_and_summarize_ollama text model chat loads
          = Json.obj [("error", Json.str e)]) ∧
    (∀ content e, chat model (buildPrompt text) = Except.ok content →
        loads content = Except.error e →
        classify_and_summarize_ollama text model chat loads
          = Json.obj [("error", Json.str e)]) := by
  constructor
  · intro e h
    unfold classify_and_summarize_ollama
    rw [h]
  · intro content e h1 h2
    unfold classify_and_summarize_ollama
    rw [h1]
    show (match loads content with
          | Except.error e => Json.obj [("error", Json.str e)]
          | Except.ok result => result) = Json.obj [("error", Json.str e)]
    rw [h2]

/-- C3 witness: a concrete transport failure yields the single-key error
dict. -/
theorem classifier_failure_returns_error_dict_witness :
    classify_and_summarize_ollama "Ticket" "llama3" c2ErrChat c10Loads
      = Json.obj [("error", Json.str "boom")] :=
  (classifier_failure_returns_error_dict "Ticket" "llama3" c2ErrChat c10Loads).1
    "boom" rfl

/-- C4: pressing Analyze with empty ticket text makes no classifier call,
leaves the session state unchanged, and shows the warning. -/
theorem empty_ticket_no_call_no_change (s : SessionState) (model : String)
    (chat : String → String → Except String String)
    (loads : String → Except String Json) (now : Datetime) :
    analyzeStep s "" model chat loads now =
      { state := s, called := false, outcome := AnalyzeOutcome.warned } := rfl

theorem exportItem_ok_original_ticket {item : HistoryEntry} {r : ExportRecord}
    (h : exportItem item = Except.ok r) :
    r.original_ticket = truncTicket item.ticket := by
  unfold exportItem at h
  cases h1 : item.result.pyGet "type" (Json.str "unknown") with
  | error e => rw [h1] at h; cases h
  | ok ty =>
    rw [h1] at h
    cases h2 : item.result.pyGet "summary" (Json.str "") with
    | error e => rw [h2] at h; cases h
    | ok sm =>
      rw [h2] at h
      cases h
      rfl

/-- C5: the exported `original_ticket` equals the stored ticket text when it
has at most 100 characters, and the first 100 characters followed by an ellipsis
(103 characters in all) when longer. -/
theorem export_truncates_original_ticket (item : HistoryEntry)
    (r : ExportRecord) (h : exportItem item = Except.ok r) :
    (item.ticket.length ≤ 100 → r.original_ticket = item.ticket) ∧
    (item.ticket.length > 100 →
      r.original_ticket = String.mk (item.ticket.toList.take 100) ++ "..." ∧
      r.original_ticket.length ≤ 103) := by
  rw [exportItem_ok_original_ticket h]
  unfold truncTicket
  constructor
  · intro hle
    rw [if_neg (by omega)]
  · intro hgt
    rw [if_pos hgt]
    refine ⟨rfl, ?_⟩
    have h3 : ("..." : String).length = 3 := rfl
    have htake : (item.ticket.toList.take 100).length = 100 := by
      rw [List.length_take]
      have : 100 ≤ item.ticket.toList.length := by
        have : item.ticket.toList.length = item.ticket.length := rfl
        omega
      omega
    have hmk : (String.mk (item.ticket.toList.take 100)).length
        = (item.ticket.toList.take 100).length := rfl
    have happ : (String.mk (item.ticket.toList.take 100) ++ "...").length
        = (String.mk (item.ticket.toList.take 100)).length + ("..." : String).length := by
      exact String.length_append _ _
    omega

/-- C5 witness: a short ticket is exported unchanged. -/
theorem export_truncates_original_ticket_witness :
    ({ timestamp := "2024-01-02 03:04:05", type := Json.str "bug",
       summary := Json.str "Login crash",
       original_ticket := "App crashes on login" } : ExportRecord).original_ticket
      = "App crashes on login" :=
  (export_truncates_original_ticket
    { timestamp := t0, ticket := "App crashes on login",
      result := Json.obj [("summary", Json.str "Login crash"), ("type", Json.str "bug")],
      model := "llama3" }
    { timestamp := "2024-01-02 03:04:05", type := Json.str "bug",
      summary := Json.str "Login crash",
      original_ticket := "App crashes on login" } rfl).1 (by decide)

/-- C7: model discovery returns the names of the endpoint on success; on any
failure it reports the error via `st.error` and returns the single hard-coded
fallback list holding llama3 (no availability check of that fallback exists in the
function). -/
theorem model_discovery_fallback (listResp : Except String (List String)) :
    (∀ names, listResp = Except.ok names →
      get_available_models listResp = (names, none)) ∧
    (∀ e, listResp = Except.error e →
      get_available_models listResp
        = (["llama3"], some ("Error fetching models: " ++ e))) := by
  constructor
  · intro names h
    rw [h]
    rfl
  · intro e h
    rw [h]
    rfl

/-- C7 witness: a concrete listing failure reports the error and falls back
to the fallback list holding llama3. -/
theorem model_discovery_fallback_witness :
    get_available_models (Except.error "boom")
      = (["llama3"], some "Error fetching models: boom") :=
  (model_discovery_fallback (Except.error "boom")).2 "boom" rfl

/-- Parse oracle whose successful parse is a non-empty JSON array. -/
def c8Loads : String → Except String Json :=
  fun _ => Except.ok (Json.arr [Json.str "x"])

/-- C8: a successful parse of non-dict content (the JSON array `["x"]`) is
truthy and passes `"error" not in result`, and the handler then applies
`.get` to a list (app.py line 148), raising `AttributeError`: the analyze
action ends in an uncaught exception instead of the success or error path. -/
theorem nondict_parse_crashes_analyze :
    classify_and_summarize_ollama "t" "llama3" c1Chat c8Loads
        = Json.arr [Json.str "x"] ∧
    (Json.arr [Json.str "x"]).isObj = false ∧
    (analyzeStep initState "t" "llama3" c1Chat c8Loads t0).outcome
        = AnalyzeOutcome.crashed :=
  ⟨rfl, rfl, rfl⟩

/-- Parse oracle whose successful parse is the empty JSON object. -/
def c9Loads : String → Except String Json :=
  fun _ => Except.ok (Json.obj [])

/-- Parse oracle whose successful parse is the empty JSON array: a falsy
value that is not a dict. -/
def c9ArrLoads : String → Except String Json :=
  fun _ => Except.ok (Json.arr [])

theorem elseBranch_called (s : SessionState) (r : Json) :
    (elseBranch s r).called = true := by
  unfold elseBranch
  cases r.pyGet "error" (Json.str "Unknown error") with
  | error e => rfl
  | ok v => rfl

/-- C9 counterexample: the empty JSON array parses successfully, is falsy and
has no error key, yet the generic error message is NOT shown — the else
branch applies .get to a list (app.py line 165) and raises AttributeError, so
the analyze action crashes with no message displayed. -/
theorem falsy_nondict_parse_crashes_else_branch :
    classify_and_summarize_ollama "t" "llama3" c1Chat c9ArrLoads = Json.arr [] ∧
    (Json.arr []).truthy = false ∧
    (Json.arr []).hasKey "error" = false ∧
    (analyzeStep initState "t" "llama3" c1Chat c9ArrLoads t0).outcome
        = AnalyzeOutcome.crashed ∧
    (analyzeStep initState "t" "llama3" c1Chat c9ArrLoads t0).outcome
        ≠ AnalyzeOutcome.errorShown (Json.str "Unknown error") :=
  ⟨rfl, rfl, rfl, rfl, fun h => nomatch h⟩

/-- C9 amended: every falsy successful parse takes the else branch of the
analyze handler, so nothing is appended and the counter is unchanged; but
the generic Unknown error message is shown only when the falsy value is the
empty dict — every other falsy parse (null, false, zero, the empty string,
the empty list) instead crashes the handler at the .get of the else branch
(app.py line 165), and no message is shown. -/
theorem falsy_parse_error_branch (s : SessionState) (text model : String)
    (now : Datetime) (v : Json)
    (hne : (pyStrip text).isEmpty = false) (hf : v.truthy = false) :
    (analyzeStep s text model c1Chat (fun _ => Except.ok v) now).state = s ∧
    (analyzeStep s text model c1Chat (fun _ => Except.ok v) now).called = true ∧
    (v = Json.obj [] →
      (analyzeStep s text model c1Chat (fun _ => Except.ok v) now).outcome
        = AnalyzeOutcome.errorShown (Json.str "Unknown error")) ∧
    (v.isObj = false →
      (analyzeStep s text model c1Chat (fun _ => Except.ok v) now).outcome
        = AnalyzeOutcome.crashed) := by
  rw [analyzeStep_eq_dispatch s text model c1Chat (fun _ => Except.ok v) now hne]
  have hc : classify_and_summarize_ollama text model c1Chat
      (fun _ => Except.ok v) = v := rfl
  rw [hc]
  unfold dispatchResult
  rw [if_neg (by simp [hf])]
  refine ⟨elseBranch_state s v, elseBranch_called s v, ?_, ?_⟩
  · intro hv
    subst hv
    rfl
  · intro hobj
    cases v with
    | obj kvs => simp [Json.isObj] at hobj
    | null => rfl
    | bool b => rfl
    | num n => rfl
    | str a => rfl
    | arr xs => rfl

/-- C9 witness: the amended theorem at the empty dict — the one falsy parse
that does reach the message — from the fresh session. -/
theorem falsy_parse_error_branch_witness :
    (analyzeStep initState "t" "llama3" c1Chat c9Loads t0).state = initState ∧
    (analyzeStep initState "t" "llama3" c1Chat c9Loads t0).outcome
        = AnalyzeOutcome.errorShown (Json.str "Unknown error") := by
  constructor
  · exact (falsy_parse_error_branch initState "t" "llama3" t0 (Json.obj []) rfl rfl).1
  · exact (falsy_parse_error_branch initState "t" "llama3" t0 (Json.obj []) rfl rfl).2.2.1 rfl

theorem isObj_exists {r : Json} (h : r.isObj = true) :
    ∃ kvs, r = Json.obj kvs := by
  cases r <;> first
    | exact ⟨_, rfl⟩
    | exact absurd h (by simp [Json.isObj])

theorem exportItem_obj {item : HistoryEntry} {kvs : List (String × Json)}
    (h : item.result = Json.obj kvs) :
    exportItem item = Except.ok
      { timestamp := strftimeDashed item.timestamp,
        type := (List.lookup "type" kvs).getD (Json.str "unknown"),
        summary := (List.lookup "summary" kvs).getD (Json.str ""),
        original_ticket := truncTicket item.ticket } := by
  unfold exportItem
  rw [h]
  rfl

theorem exportItem_ok_timestamp {item : HistoryEntry} {r : ExportRecord}
    (h : exportItem item = Except.ok r) :
    r.timestamp = strftimeDashed item.timestamp := by
  unfold exportItem at h
  cases h1 : item.result.pyGet "type" (Json.str "unknown") with
  | error e => rw [h1] at h; cases h
  | ok ty =>
    rw [h1] at h
    cases h2 : item.result.pyGet "summary" (Json.str "") with
    | error e => rw [h2] at h; cases h
    | ok sm =>
      rw [h2] at h
      cases h
      rfl

/-- A history whose stored results are all dicts exports without raising,
record-for-record. -/
theorem buildExportData_ok (hist : List HistoryEntry)
    (h : ∀ e ∈ hist, e.result.isObj = true) :
    ∃ data, buildExportData hist = Except.ok data ∧
      List.Forall₂ (fun (e : HistoryEntry) (r : ExportRecord) =>
        exportItem e = Except.ok r) hist data := by
  induction hist with
  | nil => exact ⟨[], rfl, List.Forall₂.nil⟩
  | cons item rest ih =>
    obtain ⟨kvs, hkvs⟩ := isObj_exists (h item (List.mem_cons_self item rest))
    obtain ⟨data, hd, hf⟩ := ih (fun e he => h e (List.mem_cons_of_mem _ he))
    refine ⟨_ :: data, ?_, List.Forall₂.cons (exportItem_obj hkvs) hf⟩
    unfold buildExportData
    rw [exportItem_obj hkvs]
    show (match buildExportData rest with
          | Except.error e => Except.error e
          | Except.ok rs => Except.ok (_ :: rs)) = _
    rw [hd]

/-- Parse oracle producing the JSON document `"oops"`: a successful parse
whose Python value is a `str`, not a dict. -/
def c6Loads : String → Except String Json :=
  fun _ => Except.ok (Json.str "oops")

/-- The reachable state after analyzing with that oracle: the string result
is truthy and `"error" not in "oops"`, so it is appended (the analyze display
then crashes, but the mutations persist). -/
def c6State : SessionState :=
  (analyzeStep initState "ticket text" "llama3" c1Chat c6Loads t0).state

/-- C6 counterexample: a reachable session state with a non-empty history on
which the export action raises (a .get lookup on a str result,
app.py line 193) and thus offers no artifact at all. -/
theorem export_nonempty_history_can_crash :
    Reachable c6State ∧ histLen c6State = 1 ∧
      exportAction c6State t1 = ExportOutcome.crashed := by
  refine ⟨Relation.ReflTransGen.single
      (AppStep.analyze initState "ticket text" "llama3" c1Chat c6Loads t0),
    ?_, ?_⟩ <;> rfl

/-- C6 amended: exporting with zero history entries warns and produces no
artifact; with a non-empty history all of whose stored results are dicts, it
offers a `ticket_analysis_<YYYYMMDD_HHMMSS>.json` artifact with MIME type
`application/json` whose records match the history entry-for-entry
(timestamps rendered as `YYYY-MM-DD HH:MM:SS`), in particular with as many
records as history entries. (A history entry whose stored result is not a
dict instead crashes the export handler — see the counterexample.) -/
theorem export_warned_empty_and_artifact_dict_history (s : SessionState)
    (now : Datetime) :
    (histLen s = 0 → exportAction s now = ExportOutcome.warned) ∧
    (histLen s ≠ 0 → (∀ e ∈ histList s, e.result.isObj = true) →
      ∃ a, exportAction s now = ExportOutcome.artifact a ∧
        a.mime = "application/json" ∧
        a.file_name = "ticket_analysis_" ++ strftimeCompact now ++ ".json" ∧
        List.Forall₂ (fun (e : HistoryEntry) (r : ExportRecord) =>
          exportItem e = Except.ok r ∧ r.timestamp = strftimeDashed e.timestamp)
          (histList s) a.data ∧
        a.data.length = histLen s) := by
  constructor
  · intro h0
    unfold exportAction
    cases hh : s.ticket_history with
    | none => rfl
    | some l =>
      cases l with
      | nil => rfl
      | cons x xs => simp [histLen, histList, hh] at h0
  · intro hne hobj
    cases hh : s.ticket_history with
    | none => exact absurd (by simp [histLen, histList, hh]) hne
    | some l =>
      cases l with
      | nil => exact absurd (by simp [histLen, histList, hh]) hne
      | cons x xs =>
        have hl : histList s = x :: xs := by simp [histList, hh]
        rw [hl] at hobj
        obtain ⟨data, hd, hf⟩ := buildExportData_ok (x :: xs) hobj
        refine ⟨{ file_name := "ticket_analysis_" ++ strftimeCompact now ++ ".json",
                  mime := "application/json", data := data }, ?_, rfl, rfl, ?_, ?_⟩
        · unfold exportAction
          rw [hh]
          show (match buildExportData (x :: xs) with
                | Except.error _ => ExportOutcome.crashed
                | Except.ok data =>
                    ExportOutcome.artifact
                      { file_name := "ticket_analysis_" ++ strftimeCompact now ++ ".json",
                        mime := "application/json", data := data }) = _
          rw [hd]
        · rw [hl]
          exact hf.imp (fun a b he => ⟨he, exportItem_ok_timestamp he⟩)
        · show data.length = histLen s
          rw [histLen, hl]
          exact hf.length_eq.symm

/-- C6 witness: from the empty session the export warns; at the reachable
state with one well-formed entry it offers an `application/json` artifact. -/
theorem export_warned_empty_and_artifact_dict_history_witness :
    exportAction initState t1 = ExportOutcome.warned ∧
      ∃ a, exportAction c10State t1 = ExportOutcome.artifact a ∧
        a.mime = "application/json" := by
  constructor
  · exact (export_warned_empty_and_artifact_dict_history initState t1).1 rfl
  · obtain ⟨a, h1, h2, _⟩ :=
      (export_warned_empty_and_artifact_dict_history c10State t1).2
        (by decide) (by decide)
    exact ⟨a, h1, h2⟩
